import Mathlib

set_option maxRecDepth 100000

/-!
Verification of the admin authentication subsystem of the up2you backend
(`src/backend/src/index.ts`): the token codec (base64url + JSON), the
HMAC-SHA256 signer/verifier, the OAuth start/callback endpoints, the
cookie parser, and the dual authenticator (`readSession` + `/api/auth/me`).

The embedding is executable: bytes are `Nat`s below 256, 32-bit words are
`Nat`s reduced mod `2^32`, and SHA-256 / HMAC are implemented concretely
(FIPS 180-4 / FIPS 198-1), so every endpoint can be evaluated on concrete
requests by `decide` / `rfl`.
-/

namespace Up2You

/-- A byte sequence; each entry is a byte value `< 256` (kept so by
construction: all arithmetic reduces mod 256 where it matters). -/
abbrev Bytes := List Nat

/-- UTF-8 encoding of one Unicode code point (standard 1–4 byte form). -/
def utf8EncodeChar (c : Char) : Bytes :=
  let n := c.toNat
  if n < 0x80 then [n]
  else if n < 0x800 then [0xC0 + n / 64, 0x80 + n % 64]
  else if n < 0x10000 then [0xE0 + n / 4096, 0x80 + (n / 64) % 64, 0x80 + n % 64]
  else [0xF0 + n / 262144, 0x80 + (n / 4096) % 64, 0x80 + (n / 64) % 64, 0x80 + n % 64]

/-- UTF-8 encoding of a string (Node `Buffer.from(s)` / `hmac.update(s)`
semantics for well-formed strings). -/
def utf8Encode (s : String) : Bytes :=
  (s.data.map utf8EncodeChar).flatten

/-- One step of UTF-8 decoding, fuelled by the remaining length.  Models
Node `buf.toString('utf8')`: a well-formed sequence decodes to its code
points; malformed lead/continuation bytes produce U+FFFD. -/
def utf8DecodeAux : Nat → Bytes → List Char
  | 0, _ => []
  | _, [] => []
  | fuel+1, b :: rest =>
    if b < 0x80 then Char.ofNat b :: utf8DecodeAux fuel rest
    else if b < 0xC0 then Char.ofNat 0xFFFD :: utf8DecodeAux fuel rest
    else if b < 0xE0 then
      match rest with
      | b1 :: r =>
        if 0x80 ≤ b1 ∧ b1 < 0xC0 then
          Char.ofNat ((b - 0xC0) * 64 + (b1 - 0x80)) :: utf8DecodeAux fuel r
        else Char.ofNat 0xFFFD :: utf8DecodeAux fuel rest
      | [] => [Char.ofNat 0xFFFD]
    else if b < 0xF0 then
      match rest with
      | b1 :: b2 :: r =>
        if (0x80 ≤ b1 ∧ b1 < 0xC0) ∧ (0x80 ≤ b2 ∧ b2 < 0xC0) then
          Char.ofNat (((b - 0xE0) * 64 + (b1 - 0x80)) * 64 + (b2 - 0x80)) :: utf8DecodeAux fuel r
        else Char.ofNat 0xFFFD :: utf8DecodeAux fuel rest
      | _ => [Char.ofNat 0xFFFD]
    else
      match rest with
      | b1 :: b2 :: b3 :: r =>
        if (0x80 ≤ b1 ∧ b1 < 0xC0) ∧ (0x80 ≤ b2 ∧ b2 < 0xC0) ∧ (0x80 ≤ b3 ∧ b3 < 0xC0) then
          Char.ofNat ((((b - 0xF0) * 64 + (b1 - 0x80)) * 64 + (b2 - 0x80)) * 64 + (b3 - 0x80))
            :: utf8DecodeAux fuel r
        else Char.ofNat 0xFFFD :: utf8DecodeAux fuel rest
      | _ => [Char.ofNat 0xFFFD]

/-- UTF-8 decoding of a byte sequence to a string. -/
def utf8Decode (bs : Bytes) : String :=
  String.mk (utf8DecodeAux bs.length bs)

/-! ### SHA-256 (FIPS 180-4), over `Nat` words reduced mod `2^32` -/

/-- `2^32`, the modulus of SHA-256 word arithmetic. -/
def w32 : Nat := 4294967296

/-- Right rotation of a 32-bit word (input assumed `< 2^32`). -/
def rotr32 (n x : Nat) : Nat :=
  ((x >>> n) ||| (x <<< (32 - n))) % w32

/-- `Ch(x,y,z)`. -/
def shaCh (x y z : Nat) : Nat := (x &&& y) ^^^ ((x ^^^ 4294967295) &&& z)

/-- `Maj(x,y,z)`. -/
def shaMaj (x y z : Nat) : Nat := (x &&& y) ^^^ (x &&& z) ^^^ (y &&& z)

/-- `Σ₀`. -/
def bsig0 (x : Nat) : Nat := rotr32 2 x ^^^ rotr32 13 x ^^^ rotr32 22 x

/-- `Σ₁`. -/
def bsig1 (x : Nat) : Nat := rotr32 6 x ^^^ rotr32 11 x ^^^ rotr32 25 x

/-- `σ₀`. -/
def ssig0 (x : Nat) : Nat := rotr32 7 x ^^^ rotr32 18 x ^^^ (x >>> 3)

/-- `σ₁`. -/
def ssig1 (x : Nat) : Nat := rotr32 17 x ^^^ rotr32 19 x ^^^ (x >>> 10)

/-- The 64 SHA-256 round constants. -/
def shaK : List Nat :=
  [1116352408, 1899447441, 3049323471, 3921009573,
   961987163, 1508970993, 2453635748, 2870763221,
   3624381080, 310598401, 607225278, 1426881987,
   1925078388, 2162078206, 2614888103, 3248222580,
   3835390401, 4022224774, 264347078, 604807628,
   770255983, 1249150122, 1555081692, 1996064986,
   2554220882, 2821834349, 2952996808, 3210313671,
   3336571891, 3584528711, 113926993, 338241895,
   666307205, 773529912, 1294757372, 1396182291,
   1695183700, 1986661051, 2177026350, 2456956037,
   2730485921, 2820302411, 3259730800, 3345764771,
   3516065817, 3600352804, 4094571909, 275423344,
   430227734, 506948616, 659060556, 883997877,
   958139571, 1322822218, 1537002063, 1747873779,
   1955562222, 2024104815, 2227730452, 2361852424,
   2428436474, 2756734187, 3204031479, 3329325298]

/-- The SHA-256 initial hash value `H⁽⁰⁾`. -/
def shaH0 : List Nat :=
  [1779033703, 3144134277, 1013904242, 2773480762,
   1359893119, 2600822924, 528734635, 1541459225]

/-- Extend the message schedule by `n` further words; `acc` holds the words
produced so far, most recent first. -/
def scheduleAux : Nat → List Nat → List Nat
  | 0, acc => acc.reverse
  | n+1, acc =>
    let x := (ssig1 (acc.getD 1 0) + acc.getD 6 0 + ssig0 (acc.getD 14 0) + acc.getD 15 0) % w32
    scheduleAux n (x :: acc)

/-- The 64-word message schedule of one 16-word block. -/
def schedule (block : List Nat) : List Nat :=
  scheduleAux 48 block.reverse

/-- One SHA-256 round, acting on the working state `[a,b,c,d,e,f,g,h]`;
`kw` is `(K_t + W_t) mod 2^32`. -/
def shaRound (st : List Nat) (kw : Nat) : List Nat :=
  match st with
  | [a, b, c, d, e, f, g, h] =>
    let t1 := (h + bsig1 e + shaCh e f g + kw) % w32
    let t2 := (bsig0 a + shaMaj a b c) % w32
    [(t1 + t2) % w32, a, b, c, (d + t1) % w32, e, f, g]
  | st => st

/-- SHA-256 compression of one 16-word block into the hash value. -/
def shaCompress (hv : List Nat) (block : List Nat) : List Nat :=
  let kws := List.zipWith (fun k w => (k + w) % w32) shaK (schedule block)
  let st := kws.foldl shaRound hv
  List.zipWith (fun x y => (x + y) % w32) hv st

/-- `n`-byte big-endian encoding of a natural number. -/
def beBytes : Nat → Nat → Bytes
  | 0, _ => []
  | n+1, x => beBytes n (x / 256) ++ [x % 256]

/-- SHA-256 padding: append `0x80`, zero bytes, and the 64-bit big-endian
bit length, to a multiple of 64 bytes. -/
def shaPad (msg : Bytes) : Bytes :=
  let padZeros := (64 - (msg.length + 9) % 64) % 64
  msg ++ [0x80] ++ List.replicate padZeros 0 ++ beBytes 8 (8 * msg.length)

/-- Group bytes into big-endian 32-bit words (length assumed divisible by 4). -/
def bytesToWords : Bytes → List Nat
  | b0 :: b1 :: b2 :: b3 :: rest => (((b0 * 256 + b1) * 256 + b2) * 256 + b3) :: bytesToWords rest
  | _ => []

/-- Split a word list into 16-word blocks, fuelled by the list length. -/
def chunk16Aux : Nat → List Nat → List (List Nat)
  | 0, _ => []
  | _, [] => []
  | fuel+1, ws => ws.take 16 :: chunk16Aux fuel (ws.drop 16)

/-- Split a word list into 16-word blocks. -/
def chunk16 (ws : List Nat) : List (List Nat) :=
  chunk16Aux ws.length ws

/-- SHA-256 of a byte sequence, as its 32 digest bytes. -/
def sha256 (msg : Bytes) : Bytes :=
  let hv := (chunk16 (bytesToWords (shaPad msg))).foldl shaCompress shaH0
  (hv.map (beBytes 4)).flatten

/-- HMAC-SHA256 (FIPS 198-1) of `msg` under `key`. -/
def hmacSha256 (key msg : Bytes) : Bytes :=
  let k0 := if 64 < key.length then sha256 key else key
  let kPad := k0 ++ List.replicate (64 - k0.length) 0
  let ipad := kPad.map (fun b => b ^^^ 0x36)
  let opad := kPad.map (fun b => b ^^^ 0x5c)
  sha256 (opad ++ sha256 (ipad ++ msg))

/-! ### base64url (RFC 4648 §5, unpadded — Node `base64url`) -/

/-- The base64url digit for a sextet value `< 64`. -/
def b64Char (n : Nat) : Char :=
  if n < 26 then Char.ofNat (65 + n)
  else if n < 52 then Char.ofNat (97 + (n - 26))
  else if n < 62 then Char.ofNat (48 + (n - 52))
  else if n = 62 then '-' else '_'

/-- base64url-encode, fuelled by the byte count; no padding characters,
matching Node `buf.toString('base64url')`. -/
def base64urlEncodeAux : Nat → Bytes → List Char
  | 0, _ => []
  | fuel+1, bs =>
    match bs with
    | b0 :: b1 :: b2 :: rest =>
      let n := (b0 * 256 + b1) * 256 + b2
      b64Char (n / 262144) :: b64Char ((n / 4096) % 64) :: b64Char ((n / 64) % 64) ::
        b64Char (n % 64) :: base64urlEncodeAux fuel rest
    | [b0, b1] =>
      let n := b0 * 256 + b1
      [b64Char (n / 1024), b64Char ((n / 16) % 64), b64Char ((n % 16) * 4)]
    | [b0] => [b64Char (b0 / 4), b64Char ((b0 % 4) * 16)]
    | [] => []

/-- base64url encoding of a byte sequence. -/
def base64urlEncode (bs : Bytes) : String :=
  String.mk (base64urlEncodeAux bs.length bs)

/-- The sextet value of a base64/base64url digit; `none` for any other
character (Node's decoder skips those). -/
def b64Val (c : Char) : Option Nat :=
  let n := c.toNat
  if 65 ≤ n ∧ n ≤ 90 then some (n - 65)
  else if 97 ≤ n ∧ n ≤ 122 then some (n - 97 + 26)
  else if 48 ≤ n ∧ n ≤ 57 then some (n - 48 + 52)
  else if c = '-' ∨ c = '+' then some 62
  else if c = '_' ∨ c = '/' then some 63
  else none

/-- Repack sextets into bytes, fuelled by the sextet count; a trailing
lone sextet is dropped, as in Node's lenient decoder. -/
def sextetsToBytes : Nat → List Nat → Bytes
  | 0, _ => []
  | fuel+1, ss =>
    match ss with
    | s0 :: s1 :: s2 :: s3 :: rest =>
      let n := ((s0 * 64 + s1) * 64 + s2) * 64 + s3
      n / 65536 :: (n / 256) % 256 :: n % 256 :: sextetsToBytes fuel rest
    | [s0, s1, s2] =>
      let n := (s0 * 64 + s1) * 64 + s2
      [n / 1024, (n / 4) % 256]
    | [s0, s1] => [(s0 * 64 + s1) / 16]
    | _ => []

/-- base64url decoding (lenient, like Node `Buffer.from(s, 'base64url')`:
undecodable characters are skipped, trailing partial groups truncated). -/
def base64urlDecode (s : String) : Bytes :=
  let ss := s.data.filterMap b64Val
  sextetsToBytes ss.length ss

/-! ### JSON values, `JSON.parse` and the serializations the code uses

JavaScript numbers are modelled as integers: the only numbers this
subsystem ever mints or checks are integral epoch seconds, so the model's
number parser accepts (signed) integer literals only. -/

/-- A JSON value as produced by `JSON.parse`.  Object fields are kept in
order; property lookup takes the last binding, matching the overwrite
semantics of `JSON.parse` on duplicate keys. -/
inductive Json where
  | jnull
  | jbool (b : Bool)
  | jnum (n : Int)
  | jstr (s : String)
  | jarr (xs : List Json)
  | jobj (fields : List (String × Json))
deriving Repr

/-- JS property access `v.k` for values coming from `JSON.parse`: `none`
stands for `undefined` (non-objects and missing keys).  Access on `null`
throws in JS; every use below sits inside a `try` whose `catch` returns
the same result as `undefined` does, so the model folds the two. -/
def jget (v : Json) (k : String) : Option Json :=
  match v with
  | .jobj fs => ((fs.filter (fun p => p.1 == k)).getLast?).map (fun p => p.2)
  | _ => none

/-- JS truthiness of a property-access result (`undefined`, `null`, `0`,
`""` and `false` are falsy). -/
def jsFalsy : Option Json → Bool
  | none => true
  | some .jnull => true
  | some (.jbool b) => !b
  | some (.jnum n) => n == 0
  | some (.jstr s) => s == ""
  | some (.jarr _) => false
  | some (.jobj _) => false

mutual

/-- JS `String(v)` conversion of a JSON value (arrays join their elements
with `,`, `null` elements becoming empty). -/
def jsToString : Json → String
  | .jnull => "null"
  | .jbool true => "true"
  | .jbool false => "false"
  | .jnum n => toString n
  | .jstr s => s
  | .jobj _ => "[object Object]"
  | .jarr xs => jsArrToString xs

/-- The `Array.prototype.join(',')` part of JS `String([...])`. -/
def jsArrToString : List Json → String
  | [] => ""
  | x :: xs =>
    (match x with
     | .jnull => ""
     | _ => jsToString x) ++
    (match xs with
     | [] => ""
     | _ :: _ => "," ++ jsArrToString xs)

end

/-- JS `String(v)` where `v` may be `undefined`. -/
def jsToStringOpt : Option Json → String
  | none => "undefined"
  | some v => jsToString v

/-- Whitespace skipping for the JSON grammar. -/
def skipWs : List Char → List Char
  | c :: cs => if c = ' ' ∨ c = '\n' ∨ c = '\t' ∨ c = '\r' then skipWs cs else c :: cs
  | [] => []

/-- The value of a hexadecimal digit. -/
def hexVal (c : Char) : Option Nat :=
  let n := c.toNat
  if 48 ≤ n ∧ n ≤ 57 then some (n - 48)
  else if 65 ≤ n ∧ n ≤ 70 then some (n - 55)
  else if 97 ≤ n ∧ n ≤ 102 then some (n - 87)
  else none

/-- Consume a run of decimal digits, returning their value and count. -/
def parseDigitsAux : List Char → Nat → Nat → (Nat × Nat × List Char)
  | c :: cs, acc, cnt =>
    if c.isDigit then parseDigitsAux cs (acc * 10 + (c.toNat - 48)) (cnt + 1)
    else (acc, cnt, c :: cs)
  | [], acc, cnt => (acc, cnt, [])

/-- Parse a JSON string body (after the opening quote), fuelled. -/
def parseJStr : Nat → List Char → Option (List Char × List Char)
  | 0, _ => none
  | _, [] => none
  | fuel+1, c :: cs =>
    if c = '"' then some ([], cs)
    else if c = '\\' then
      match cs with
      | e :: cs2 =>
        let esc : Option (Char × List Char) :=
          if e = '"' then some ('"', cs2)
          else if e = '\\' then some ('\\', cs2)
          else if e = '/' then some ('/', cs2)
          else if e = 'n' then some ('\n', cs2)
          else if e = 't' then some ('\t', cs2)
          else if e = 'r' then some ('\r', cs2)
          else if e = 'b' then some (Char.ofNat 8, cs2)
          else if e = 'f' then some (Char.ofNat 12, cs2)
          else if e = 'u' then
            match cs2 with
            | h1 :: h2 :: h3 :: h4 :: cs3 =>
              match hexVal h1, hexVal h2, hexVal h3, hexVal h4 with
              | some a, some b, some c2, some d =>
                some (Char.ofNat (((a * 16 + b) * 16 + c2) * 16 + d), cs3)
              | _, _, _, _ => none
            | _ => none
          else none
        match esc with
        | some (ch, rest) =>
          match parseJStr fuel rest with
          | some (s, r) => some (ch :: s, r)
          | none => none
        | none => none
      | [] => none
    else
      match parseJStr fuel cs with
      | some (s, r) => some (c :: s, r)
      | none => none

/-- Try to consume a literal keyword. -/
def parseLit : List Char → List Char → Option (List Char)
  | [], cs => some cs
  | w :: ws, c :: cs => if c = w then parseLit ws cs else none
  | _ :: _, [] => none

mutual

/-- Parse one JSON value (fuelled recursive descent). -/
def parseJson : Nat → List Char → Option (Json × List Char)
  | 0, _ => none
  | fuel+1, input =>
    match skipWs input with
    | [] => none
    | c :: cs =>
      if c = '{' then parseJObjFields fuel cs true
      else if c = '[' then parseJArrElems fuel cs true
      else if c = '"' then
        match parseJStr (cs.length + 1) cs with
        | some (s, r) => some (.jstr (String.mk s), r)
        | none => none
      else if c = '-' then
        match parseDigitsAux cs 0 0 with
        | (n, cnt, r) =>
          if cnt = 0 then none
          else match r with
            | d :: _ => if d = '.' ∨ d = 'e' ∨ d = 'E' then none else some (.jnum (-(n : Int)), r)
            | [] => some (.jnum (-(n : Int)), [])
      else if c.isDigit then
        match parseDigitsAux (c :: cs) 0 0 with
        | (n, _, r) =>
          match r with
          | d :: _ => if d = '.' ∨ d = 'e' ∨ d = 'E' then none else some (.jnum (n : Int), r)
          | [] => some (.jnum (n : Int), [])
      else
        match parseLit ['t', 'r', 'u', 'e'] (c :: cs) with
        | some r => some (.jbool true, r)
        | none =>
          match parseLit ['f', 'a', 'l', 's', 'e'] (c :: cs) with
          | some r => some (.jbool false, r)
          | none =>
            match parseLit ['n', 'u', 'l', 'l'] (c :: cs) with
            | some r => some (.jnull, r)
            | none => none

/-- Parse the members of an object after the opening brace; `first` marks
that no member has been consumed yet. -/
def parseJObjFields : Nat → List Char → Bool → Option (Json × List Char)
  | 0, _, _ => none
  | fuel+1, input, first =>
    match skipWs input with
    | [] => none
    | c :: cs =>
      if c = '}' ∧ first then some (.jobj [], cs)
      else
        let start := if first then c :: cs else
          match c :: cs with
          | c2 :: cs2 => if c2 = ',' then skipWs cs2 else []
          | [] => []
        match start with
        | q :: qs =>
          if q = '"' then
            match parseJStr (qs.length + 1) qs with
            | some (k, r1) =>
              match skipWs r1 with
              | colon :: r2 =>
                if colon = ':' then
                  match parseJson fuel r2 with
                  | some (v, r3) =>
                    match skipWs r3 with
                    | '}' :: r4 => some (.jobj [(String.mk k, v)], r4)
                    | rest4 =>
                      match parseJObjFields fuel rest4 false with
                      | some (.jobj fs, r5) => some (.jobj ((String.mk k, v) :: fs), r5)
                      | _ => none
                  | none => none
                else none
              | [] => none
            | none => none
          else none
        | [] => none

/-- Parse the elements of an array after the opening bracket; `first`
marks that no element has been consumed yet. -/
def parseJArrElems : Nat → List Char → Bool → Option (Json × List Char)
  | 0, _, _ => none
  | fuel+1, input, first =>
    match skipWs input with
    | [] => none
    | c :: cs =>
      if c = ']' ∧ first then some (.jarr [], cs)
      else
        let start := if first then c :: cs else
          match c :: cs with
          | c2 :: cs2 => if c2 = ',' then skipWs cs2 else []
          | [] => []
        match start with
        | _ :: _ =>
          match parseJson fuel start with
          | some (v, r1) =>
            match skipWs r1 with
            | ']' :: r2 => some (.jarr [v], r2)
            | rest2 =>
              match parseJArrElems fuel rest2 false with
              | some (.jarr vs, r3) => some (.jarr (v :: vs), r3)
              | _ => none
          | none => none
        | [] => none

end

/-- `JSON.parse` on a string: parse one value and require only whitespace
after it; `none` models a thrown `SyntaxError`. -/
def jsonParse (s : String) : Option Json :=
  match parseJson (2 * s.length + 2) s.data with
  | some (v, rest) => if skipWs rest = [] then some v else none
  | none => none

/-- The hexadecimal digit character for `n < 16` (lowercase). -/
def hexDigit (n : Nat) : Char :=
  if n < 10 then Char.ofNat (48 + n) else Char.ofNat (87 + n)

/-- The hexadecimal digit character for `n < 16` (uppercase). -/
def hexDigitUp (n : Nat) : Char :=
  if n < 10 then Char.ofNat (48 + n) else Char.ofNat (55 + n)

/-- `JSON.stringify` escaping of one character. -/
def jsonEscapeChar (c : Char) : List Char :=
  if c = '"' then ['\\', '"']
  else if c = '\\' then ['\\', '\\']
  else if c = '\n' then ['\\', 'n']
  else if c = '\r' then ['\\', 'r']
  else if c = '\t' then ['\\', 't']
  else if c.toNat = 8 then ['\\', 'b']
  else if c.toNat = 12 then ['\\', 'f']
  else if c.toNat < 32 then ['\\', 'u', '0', '0', hexDigit (c.toNat / 16), hexDigit (c.toNat % 16)]
  else [c]

/-- `JSON.stringify` of a string value. -/
def jsonStringifyStr (s : String) : String :=
  "\"" ++ String.mk ((s.data.map jsonEscapeChar).flatten) ++ "\""

/-! ### JS string primitives

The JS string methods the handlers use, implemented over the character
list so that they evaluate inside the kernel (`decide`/`rfl`). -/

/-- JS `String.prototype.split` with a one-character separator:
`''.split(sep)` is `['']`, adjacent separators give empty pieces. -/
def jsSplitAux : List Char → Char → List Char → List String
  | [], _, acc => [String.mk acc.reverse]
  | c :: cs, sep, acc =>
    if c = sep then String.mk acc.reverse :: jsSplitAux cs sep []
    else jsSplitAux cs sep (c :: acc)

/-- JS `s.split(sep)` for a one-character separator. -/
def jsSplit (s : String) (sep : Char) : List String :=
  jsSplitAux s.data sep []

/-- The whitespace class of JS `String.prototype.trim` (ASCII part; the
cookie grammar never carries the exotic Unicode spaces). -/
def jsIsWs (c : Char) : Bool :=
  c = ' ' ∨ c = '\t' ∨ c = '\n' ∨ c = '\r' ∨ c.toNat = 11 ∨ c.toNat = 12

/-- JS `s.trim()`. -/
def jsTrim (s : String) : String :=
  String.mk (((s.data.dropWhile jsIsWs).reverse.dropWhile jsIsWs).reverse)

/-- JS `s.startsWith('/')`-style check for a one-character argument: true
iff the first character is `c` (the source only ever tests `'/'`). -/
def firstCharIs (s : String) (c : Char) : Bool :=
  match s.data with
  | d :: _ => d = c
  | [] => false

/-- JS `s.toLowerCase()` (ASCII part; `NODE_ENV` values are ASCII). -/
def jsToLower (s : String) : String :=
  String.mk (s.data.map (fun c =>
    if 65 ≤ c.toNat ∧ c.toNat ≤ 90 then Char.ofNat (c.toNat + 32) else c))

/-! ### The backend model (`src/backend/src/index.ts`)

Each `process.env` variable is modelled as a `String`, with `""` standing
for both "unset" and "set to the empty string": every read in the source
is of the form `process.env.X || ''`, which identifies the two.  Clock
reads (`Date.now()`, milliseconds) become an explicit `nowMs` argument,
and the two upstream `fetch`es of the callback become explicit inputs. -/

/-- The configuration surface the auth subsystem reads. -/
structure Env where
  googleClientId : String
  googleClientSecret : String
  googleRedirectUri : String
  adminJwtSecret : String
  adminApiToken : String
  nodeEnv : String
deriving Repr

/-- The parts of an incoming request the auth subsystem inspects.
`none` models an absent header. -/
structure Request where
  cookieHeader : Option String
  adminTokenHeader : Option String
deriving Repr

/-- `parseCookies` (index.ts:128-140): split the `cookie` header on `;`,
take `k=v` pairs around the first `=`, trim both, skip entries with empty
names; later bindings of a name overwrite earlier ones. -/
def parseCookies (header : Option String) : List (String × String) :=
  let h := header.getD ""
  (jsSplit h ';').foldl
    (fun out p =>
      match p.data.findIdx? (fun c => c = '=') with
      | some i =>
        let k := jsTrim (String.mk (p.data.take i))
        let v := jsTrim (String.mk (p.data.drop (i + 1)))
        if k ≠ "" then
          if out.any (fun q => q.1 == k) then
            out.map (fun q => if q.1 == k then (k, v) else q)
          else out ++ [(k, v)]
        else out
      | none => out)
    []

/-- Record lookup on the parsed cookie map (keys are unique by
construction of `parseCookies`). -/
def cookieGet (m : List (String × String)) (k : String) : Option String :=
  (m.find? (fun p => p.1 == k)).map (fun p => p.2)

/-- The expiry checks of `readSession` (index.ts:157-158) on a parsed
payload: `!payload.exp || typeof payload.exp !== 'number'` rejects, then
`payload.exp < Math.floor(Date.now() / 1000)` rejects; otherwise the
payload is returned.  Property access on a `null` payload throws in JS
and is caught by the surrounding `try`, which is the same `none` the
falsy check yields here. -/
def checkPayloadExp (payload : Json) (nowSec : Nat) : Option Json :=
  let expv := jget payload "exp"
  if jsFalsy expv then none
  else
    match expv with
    | some (.jnum n) => if n < (nowSec : Int) then none else some payload
    | _ => none

/-- The token part of `readSession` (index.ts:145-162): reject an empty
token, an empty secret, a token that does not split on `.` into exactly
two non-empty parts, or a signature differing from the recomputed
HMAC-SHA256; then base64url-decode and `JSON.parse` the payload (parse
failure is caught, giving `none`) and apply the expiry checks. -/
def readSessionToken (secret : String) (nowSec : Nat) (token : String) : Option Json :=
  if token = "" then none
  else if secret = "" then none
  else
    match jsSplit token '.' with
    | [b64, sig] =>
      if b64 = "" ∨ sig = "" then none
      else
        let expectedSig := base64urlEncode (hmacSha256 (utf8Encode secret) (utf8Encode b64))
        if sig ≠ expectedSig then none
        else
          match jsonParse (utf8Decode (base64urlDecode b64)) with
          | some payload => checkPayloadExp payload nowSec
          | none => none
    | _ => none

/-- `readSession` (index.ts:142-163): the cookie-side half of the dual
authenticator.  Returns the session payload, or `none` for "no session". -/
def readSession (env : Env) (nowMs : Nat) (req : Request) : Option Json :=
  match cookieGet (parseCookies req.cookieHeader) "admin_session" with
  | some token => readSessionToken env.adminJwtSecret (nowMs / 1000) token
  | none => none

/-- The `user` object of a `/api/auth/me` response; `none` fields model
`undefined` (omitted by `res.json`). -/
structure MeUser where
  email : Option Json
  name : Option Json
  sub : Option Json
deriving Repr

/-- A `/api/auth/me` response. -/
structure MeResponse where
  status : Nat
  authenticated : Bool
  user : Option MeUser
deriving Repr

/-- The synthetic principal returned when only the static header token
authenticates (index.ts:180). -/
def devAdminUser : MeUser :=
  { email := some (.jstr "dev-admin@local"),
    name := some (.jstr "Dev Admin"),
    sub := some (.jstr "dev-admin") }

/-- `GET /api/auth/me` (index.ts:165-182): 401 `{authenticated:false}`
unless the cookie session or the static `x-admin-token` header check
succeeds; a session wins over the header for the reported user. -/
def apiAuthMe (env : Env) (nowMs : Nat) (req : Request) : MeResponse :=
  let session := readSession env nowMs req
  let headerToken := req.adminTokenHeader.getD ""
  let expected := env.adminApiToken
  let headerOk := expected ≠ "" ∧ headerToken = expected
  match session with
  | none =>
    if headerOk then { status := 200, authenticated := true, user := some devAdminUser }
    else { status := 401, authenticated := false, user := none }
  | some payload =>
    { status := 200, authenticated := true,
      user := some { email := jget payload "email", name := jget payload "name",
                     sub := jget payload "sub" } }

/-! ### OAuth flow controller -/

/-- `application/x-www-form-urlencoded` escaping of one character, as
`URLSearchParams.toString()` performs it. -/
def urlEncodeChar (c : Char) : List Char :=
  if c.isAlphanum ∨ c = '*' ∨ c = '-' ∨ c = '.' ∨ c = '_' then [c]
  else if c = ' ' then ['+']
  else ((utf8EncodeChar c).map (fun b => ['%', hexDigitUp (b / 16), hexDigitUp (b % 16)])).flatten

/-- `URLSearchParams.toString()` encoding of a string. -/
def urlEncode (s : String) : String :=
  String.mk ((s.data.map urlEncodeChar).flatten)

/-- `URLSearchParams({...}).toString()`: `k=v` pairs joined by `&`. -/
def formParams (ps : List (String × String)) : String :=
  String.intercalate "&" (ps.map (fun p => urlEncode p.1 ++ "=" ++ urlEncode p.2))

/-- A `GET /api/auth/google/start` response. -/
structure StartResponse where
  status : Nat
  errorMsg : Option String
  location : Option String
deriving Repr

/-- The `state` computed by the start endpoint (index.ts:47-49):
`req.query.from` when it is a string starting with `/`, else the
default `/admin` (`safeFrom || '/admin'`). -/
def computeState (fromQ : Option String) : String :=
  let fromStr := fromQ.getD ""
  let safeFrom := if firstCharIs fromStr '/' then fromStr else ""
  if safeFrom ≠ "" then safeFrom else "/admin"

/-- `GET /api/auth/google/start` (index.ts:43-65).  `fromQ` is
`req.query.from` when that is a string, `none` otherwise. -/
def apiAuthGoogleStart (env : Env) (fromQ : Option String) : StartResponse :=
  let clientId := env.googleClientId
  let redirectUri := env.googleRedirectUri
  let scope := "openid email profile"
  let state := computeState fromQ
  if clientId = "" ∨ redirectUri = "" then
    { status := 500, errorMsg := some "Google OAuth not configured", location := none }
  else
    let query := formParams
      [("response_type", "code"), ("client_id", clientId), ("redirect_uri", redirectUri),
       ("scope", scope), ("state", state), ("access_type", "offline"), ("prompt", "consent")]
    { status := 302, errorMsg := none,
      location := some ("https://accounts.google.com/o/oauth2/v2/auth?" ++ query) }

/-- A `Set-Cookie` issued by the callback (`maxAge := none` means the
option was not passed). -/
structure SetCookie where
  name : String
  value : String
  httpOnly : Bool
  sameSite : String
  secure : Bool
  path : String
  maxAge : Option Nat
deriving Repr

/-- The outcome of one upstream `fetch` in the callback: HTTP success
flag (`res.ok`) and parsed JSON body. -/
structure UpstreamResult where
  ok : Bool
  body : Json
deriving Repr

/-- The two upstream exchanges of the callback, plus `threw`, which
models any exception inside the `try` (network failure, `res.json()`
parse failure, …) caught by the handler's `catch`. -/
structure CallbackUpstream where
  threw : Bool
  tokenRes : UpstreamResult
  infoRes : UpstreamResult
deriving Repr

/-- A `GET /api/auth/google/callback` response. -/
structure CallbackResponse where
  status : Nat
  errorMsg : Option String
  cookie : Option SetCookie
  location : Option String
deriving Repr

/-- The serialized session payload:
`JSON.stringify({ sub, email, exp, name })` (index.ts:114-115). -/
def payloadJson (sub email : String) (exp : Int) (name : String) : String :=
  "\x7b\"sub\":" ++ jsonStringifyStr sub ++ ",\"email\":" ++ jsonStringifyStr email ++
  ",\"exp\":" ++ toString exp ++ ",\"name\":" ++ jsonStringifyStr name ++ "\x7d"

/-- Mint the signed session token: `b64.sig` with `b64` the base64url of
the serialized payload and `sig` the base64url HMAC-SHA256 of `b64`
under the signing secret (index.ts:116-118). -/
def mintToken (secret json : String) : String :=
  let b64 := base64urlEncode (utf8Encode json)
  let sig := base64urlEncode (hmacSha256 (utf8Encode secret) (utf8Encode b64))
  b64 ++ "." ++ sig

/-- `GET /api/auth/google/callback` (index.ts:67-126).  `codeQ`/`stateQ`
are the query parameters (`none` for absent, coerced through `|| ''`). -/
def apiAuthGoogleCallback (env : Env) (nowMs : Nat) (codeQ stateQ : Option String)
    (up : CallbackUpstream) : CallbackResponse :=
  let code := codeQ.getD ""
  let state := stateQ.getD ""
  let clientId := env.googleClientId
  let clientSecret := env.googleClientSecret
  let redirectUri := env.googleRedirectUri
  let adminJwtSecret := env.adminJwtSecret
  if code = "" ∨ clientId = "" ∨ clientSecret = "" ∨ redirectUri = "" ∨ adminJwtSecret = "" then
    { status := 400, errorMsg := some "Invalid Google OAuth callback",
      cookie := none, location := none }
  else if up.threw then
    { status := 500, errorMsg := some "Google auth error", cookie := none, location := none }
  else if ¬ up.tokenRes.ok then
    { status := 401, errorMsg := some "Google token exchange failed",
      cookie := none, location := none }
  else
    let info := up.infoRes.body
    if ¬ up.infoRes.ok then
      { status := 401, errorMsg := some "Invalid Google ID token",
        cookie := none, location := none }
    else if jsToStringOpt (jget info "aud") ≠ clientId then
      { status := 401, errorMsg := some "Mismatched audience", cookie := none, location := none }
    else
      let email := if jsFalsy (jget info "email") then "" else jsToStringOpt (jget info "email")
      let sub := if jsFalsy (jget info "sub") then "" else jsToStringOpt (jget info "sub")
      if email = "" ∨ sub = "" then
        { status := 401, errorMsg := some "Missing Google user info",
          cookie := none, location := none }
      else
        let name := if jsFalsy (jget info "name") then "" else jsToStringOpt (jget info "name")
        let exp : Int := ((nowMs / 1000 : Nat) : Int) + 7 * 24 * 60 * 60
        let token := mintToken adminJwtSecret (payloadJson sub email exp name)
        let secure := jsToLower env.nodeEnv == "production"
        let dest := if firstCharIs state '/' then state else "/admin"
        { status := 302, errorMsg := none,
          cookie := some { name := "admin_session", value := token, httpOnly := true,
                           sameSite := "lax", secure := secure, path := "/", maxAge := none },
          location := some dest }

/-- The conjunction of all guards of the callback's success path. -/
def callbackSuccess (env : Env) (codeQ : Option String) (up : CallbackUpstream) : Prop :=
  codeQ.getD "" ≠ "" ∧ env.googleClientId ≠ "" ∧ env.googleClientSecret ≠ "" ∧
  env.googleRedirectUri ≠ "" ∧ env.adminJwtSecret ≠ "" ∧ up.threw = false ∧
  up.tokenRes.ok = true ∧ up.infoRes.ok = true ∧
  jsToStringOpt (jget up.infoRes.body "aud") = env.googleClientId ∧
  (if jsFalsy (jget up.infoRes.body "email") then "" else jsToStringOpt (jget up.infoRes.body "email")) ≠ "" ∧
  (if jsFalsy (jget up.infoRes.body "sub") then "" else jsToStringOpt (jget up.infoRes.body "sub")) ≠ ""

instance (env : Env) (codeQ : Option String) (up : CallbackUpstream) :
    Decidable (callbackSuccess env codeQ up) := by
  unfold callbackSuccess
  infer_instance

/-! ### Concrete fixtures used by witnesses and counterexamples -/

/-- A concrete signing secret. -/
def secretFix : String := "test-secret-1"

/-- A fully configured environment. -/
def envFix : Env :=
  { googleClientId := "client-id-1", googleClientSecret := "client-secret-1",
    googleRedirectUri := "https://app.example/api/auth/google/callback",
    adminJwtSecret := secretFix, adminApiToken := "api-token-1", nodeEnv := "development" }

/-- A concrete request clock (milliseconds), about 2023-11-14. -/
def nowMsFix : Nat := 1700000000123

/-- The base64url-encoded payload part of a token over `json`. -/
def b64Of (json : String) : String := base64urlEncode (utf8Encode json)

/-- The base64url HMAC-SHA256 signature part of a token over `json`. -/
def sigOf (secret json : String) : String :=
  base64urlEncode (hmacSha256 (utf8Encode secret) (utf8Encode (b64Of json)))

/-- A serialized payload whose `exp` (1000) is long past. -/
def jsonExpiredFix : String := payloadJson "g123" "a@b.c" 1000 "Al"

/-- The JSON value `jsonExpiredFix` parses back to. -/
def payloadExpiredFix : Json :=
  .jobj [("sub", .jstr "g123"), ("email", .jstr "a@b.c"), ("exp", .jnum 1000),
         ("name", .jstr "Al")]

/-- A correctly signed but expired token. -/
def tokenExpiredFix : String := mintToken secretFix jsonExpiredFix

/-- A request carrying the expired token. -/
def reqExpiredFix : Request :=
  { cookieHeader := some ("admin_session=" ++ tokenExpiredFix), adminTokenHeader := none }

/-- A serialized payload with a far-future `exp` but no `sub`/`email`. -/
def jsonNoSubFix : String := "\x7b\"exp\":9999999999\x7d"

/-- The JSON value `jsonNoSubFix` parses back to. -/
def payloadNoSubFix : Json := .jobj [("exp", .jnum 9999999999)]

/-- A correctly signed, unexpired token whose payload has no `sub`/`email`. -/
def tokenNoSubFix : String := mintToken secretFix jsonNoSubFix

/-- A request carrying that token. -/
def reqNoSubFix : Request :=
  { cookieHeader := some ("admin_session=" ++ tokenNoSubFix), adminTokenHeader := none }

/-- A token correctly signed with the empty string as HMAC key. -/
def tokenEmptyKeyFix : String := mintToken "" (payloadJson "g123" "a@b.c" 9999999999 "Al")

/-- A request carrying the empty-key token. -/
def reqEmptyKeyFix : Request :=
  { cookieHeader := some ("admin_session=" ++ tokenEmptyKeyFix), adminTokenHeader := none }

/-- A request whose cookie token has two separators (three parts). -/
def reqMalformedFix : Request :=
  { cookieHeader := some "admin_session=a.b.c", adminTokenHeader := none }

/-- A request with no cookie and a correct static admin token header. -/
def reqHeaderOnlyFix : Request :=
  { cookieHeader := none, adminTokenHeader := some "api-token-1" }

/-- `envFix` with the OAuth client secret unset. -/
def envNoClientSecretFix : Env := { envFix with googleClientSecret := "" }

/-- `envFix` with the OAuth client id unset. -/
def envNoClientIdFix : Env := { envFix with googleClientId := "" }

/-- `envFix` with the session-signing secret unset. -/
def envNoJwtSecretFix : Env := { envFix with adminJwtSecret := "" }

/-- Upstream results of a fully successful exchange (audience matches). -/
def upFix : CallbackUpstream :=
  { threw := false,
    tokenRes := { ok := true, body := .jobj [("id_token", .jstr "idt")] },
    infoRes := { ok := true,
                 body := .jobj [("aud", .jstr "client-id-1"), ("email", .jstr "a@b.c"),
                                ("sub", .jstr "g123"), ("name", .jstr "Al")] } }

/-- Upstream results whose identity assertion has a mismatched audience. -/
def upBadAudFix : CallbackUpstream :=
  { threw := false,
    tokenRes := { ok := true, body := .jobj [("id_token", .jstr "idt")] },
    infoRes := { ok := true,
                 body := .jobj [("aud", .jstr "other-client"), ("email", .jstr "a@b.c"),
                                ("sub", .jstr "g123"), ("name", .jstr "Al")] } }

/-! ### Sanity checks of the crypto layer against standard test vectors -/

example : base64urlEncode (sha256 (utf8Encode "abc")) =
    "ungWv48Bz-pBQUDeXa4iI7ADYaOWF3qctBD_YfIAFa0" := by decide

example : base64urlEncode (hmacSha256 (utf8Encode "key")
    (utf8Encode "The quick brown fox jumps over the lazy dog")) =
    "97yD9DBThCSxMpjmqm-xQ-9NWaFJRhdZl0edvC0aPNg" := by decide

/-! ### Helper lemmas -/

/-- A token that does not split on `.` into exactly two non-empty parts is
rejected by the token check. -/
theorem readSessionToken_malformed_split (secret : String) (nowSec : Nat) (token : String)
    (h : (jsSplit token '.').length ≠ 2 ∨ "" ∈ jsSplit token '.') :
    readSessionToken secret nowSec token = none := by
  unfold readSessionToken
  by_cases ht : token = ""
  · simp [ht]
  · rw [if_neg ht]
    by_cases hs : secret = ""
    · simp [hs]
    · rw [if_neg hs]
      rcases hsp : jsSplit token '.' with _ | ⟨a, _ | ⟨b, _ | ⟨c, rest⟩⟩⟩
      · rfl
      · rfl
      · rw [hsp] at h
        simp only [List.length_cons, List.length_nil, List.mem_cons,
          List.not_mem_nil, or_false] at h
        rcases h with h | h
        · omega
        · rcases h with h | h
          · simp [← h]
          · simp [← h]
      · rfl

/-- On a well-formed token whose signature matches, the token check reduces
to the payload expiry check. -/
theorem readSessionToken_verified (secret : String) (nowSec : Nat) (token b64 sig : String)
    (payload : Json)
    (hsp : jsSplit token '.' = [b64, sig]) (hb : b64 ≠ "") (hs : sig ≠ "")
    (hsecret : secret ≠ "")
    (hsig : sig = base64urlEncode (hmacSha256 (utf8Encode secret) (utf8Encode b64)))
    (hparse : jsonParse (utf8Decode (base64urlDecode b64)) = some payload) :
    readSessionToken secret nowSec token = checkPayloadExp payload nowSec := by
  have htok : token ≠ "" := by
    intro h
    rw [h, show jsSplit "" '.' = [""] from rfl] at hsp
    simp at hsp
  unfold readSessionToken
  rw [if_neg htok, if_neg hsecret, hsp]
  simp only
  rw [if_neg (by simp [hb, hs]), if_neg (by simp [hsig]), hparse]

/-- Lifting a token-level result to `readSession`. -/
theorem readSession_of_cookie (env : Env) (nowMs : Nat) (req : Request) (token : String)
    (hc : cookieGet (parseCookies req.cookieHeader) "admin_session" = some token) :
    readSession env nowMs req = readSessionToken env.adminJwtSecret (nowMs / 1000) token := by
  unfold readSession
  rw [hc]

/-- The payload check rejects an `exp` that is missing (also: any falsy
`exp`), non-numeric, or numerically below `nowSec`. -/
theorem checkPayloadExp_invalid (payload : Json) (nowSec : Nat)
    (h : jget payload "exp" = none ∨
         (∀ n : Int, jget payload "exp" ≠ some (.jnum n)) ∨
         (∃ n : Int, jget payload "exp" = some (.jnum n) ∧ n < (nowSec : Int))) :
    checkPayloadExp payload nowSec = none := by
  unfold checkPayloadExp
  rcases h with h | h | h
  · simp [h, jsFalsy]
  · by_cases hf : jsFalsy (jget payload "exp") = true
    · simp [hf]
    · rw [if_neg (by simp [hf])]
      rcases hv : jget payload "exp" with _ | v
      · simp [hv, jsFalsy] at hf
      · cases v with
        | jnum n => exact absurd hv (h n)
        | jnull => rfl
        | jbool b => rfl
        | jstr s => rfl
        | jarr xs => rfl
        | jobj fs => rfl
  · rcases h with ⟨n, hv, hlt⟩
    by_cases hn : n = 0
    · simp [hv, hn, jsFalsy]
    · rw [if_neg (by simp [hv, jsFalsy, hn]), hv]
      simp [hlt]

/-- The payload check accepts a truthy numeric `exp` not below `nowSec`,
returning the payload unchanged. -/
theorem checkPayloadExp_valid (payload : Json) (nowSec : Nat) (n : Int)
    (hv : jget payload "exp" = some (.jnum n)) (hn : n ≠ 0)
    (hge : ¬ n < (nowSec : Int)) :
    checkPayloadExp payload nowSec = some payload := by
  unfold checkPayloadExp
  rw [if_neg (by simp [hv, jsFalsy, hn]), hv]
  simp [hge]

/-- When every guard of the callback's success path holds, the callback
response is exactly the 302 with its freshly minted cookie. -/
theorem callback_success_eq (env : Env) (nowMs : Nat) (codeQ stateQ : Option String)
    (up : CallbackUpstream) (h : callbackSuccess env codeQ up) :
    apiAuthGoogleCallback env nowMs codeQ stateQ up =
      { status := 302, errorMsg := none,
        cookie := some
          { name := "admin_session",
            value := mintToken env.adminJwtSecret (payloadJson
              (if jsFalsy (jget up.infoRes.body "sub") then ""
               else jsToStringOpt (jget up.infoRes.body "sub"))
              (if jsFalsy (jget up.infoRes.body "email") then ""
               else jsToStringOpt (jget up.infoRes.body "email"))
              (((nowMs / 1000 : Nat) : Int) + 604800)
              (if jsFalsy (jget up.infoRes.body "name") then ""
               else jsToStringOpt (jget up.infoRes.body "name"))),
            httpOnly := true, sameSite := "lax",
            secure := jsToLower env.nodeEnv == "production", path := "/", maxAge := none },
        location := some (if firstCharIs (stateQ.getD "") '/' then stateQ.getD ""
                          else "/admin") } := by
  obtain ⟨hcode, hcid, hcs, hru, hsec, hthrew, htok, hinfo, haud, hemail, hsub⟩ := h
  simp only [apiAuthGoogleCallback]
  rw [if_neg (by simp [hcode, hcid, hcs, hru, hsec]), if_neg (by simp [hthrew]),
      if_neg (by simp [htok]), if_neg (by simp [hinfo]), if_neg (by simp [haud]),
      if_neg (by simp [hemail, hsub])]
  rfl

/-- When any guard of the success path fails, the callback sets no
cookie. -/
theorem callback_failure_no_cookie (env : Env) (nowMs : Nat) (codeQ stateQ : Option String)
    (up : CallbackUpstream) (h : ¬ callbackSuccess env codeQ up) :
    (apiAuthGoogleCallback env nowMs codeQ stateQ up).cookie = none := by
  simp only [apiAuthGoogleCallback]
  by_cases h1 : codeQ.getD "" = "" ∨ env.googleClientId = "" ∨ env.googleClientSecret = "" ∨
      env.googleRedirectUri = "" ∨ env.adminJwtSecret = ""
  · rw [if_pos h1]
  · rw [if_neg h1]
    push_neg at h1
    obtain ⟨hcode, hcid, hcs, hru, hsec⟩ := h1
    by_cases h2 : up.threw = true
    · rw [if_pos h2]
    · rw [if_neg h2]
      have hthrew : up.threw = false := by
        revert h2
        cases up.threw <;> simp
      by_cases h3 : up.tokenRes.ok = true
      · rw [if_neg (by simp [h3])]
        by_cases h4 : up.infoRes.ok = true
        · rw [if_neg (by simp [h4])]
          by_cases h5 : jsToStringOpt (jget up.infoRes.body "aud") = env.googleClientId
          · rw [if_neg (by simp [h5])]
            by_cases h6 :
                (if jsFalsy (jget up.infoRes.body "email") then ""
                 else jsToStringOpt (jget up.infoRes.body "email")) = "" ∨
                (if jsFalsy (jget up.infoRes.body "sub") then ""
                 else jsToStringOpt (jget up.infoRes.body "sub")) = ""
            · rw [if_pos h6]
            · push_neg at h6
              exact absurd ⟨hcode, hcid, hcs, hru, hsec, hthrew, h3, h4, h5, h6.1, h6.2⟩ h
          · rw [if_pos h5]
        · rw [if_pos h4]
      · rw [if_pos h3]

/-- Reaching the audience check with a mismatched `aud` yields exactly the
401 "Mismatched audience" response, with no cookie. -/
theorem callback_aud_mismatch_eq (env : Env) (nowMs : Nat) (codeQ stateQ : Option String)
    (up : CallbackUpstream)
    (hcode : codeQ.getD "" ≠ "") (hcid : env.googleClientId ≠ "")
    (hcs : env.googleClientSecret ≠ "") (hru : env.googleRedirectUri ≠ "")
    (hsec : env.adminJwtSecret ≠ "") (hthrew : up.threw = false)
    (htok : up.tokenRes.ok = true) (hinfo : up.infoRes.ok = true)
    (haud : jsToStringOpt (jget up.infoRes.body "aud") ≠ env.googleClientId) :
    apiAuthGoogleCallback env nowMs codeQ stateQ up =
      { status := 401, errorMsg := some "Mismatched audience", cookie := none,
        location := none } := by
  simp only [apiAuthGoogleCallback]
  rw [if_neg (by simp [hcode, hcid, hcs, hru, hsec]), if_neg (by simp [hthrew]),
      if_neg (by simp [htok]), if_neg (by simp [hinfo]), if_pos haud]

/-! ### The claims -/

/-- C2 (counterexample): with client id and redirect URI configured but the
client secret empty, the start endpoint still answers 302 with a redirect
— not the configuration error the claim requires for any missing one of
the three. -/
theorem c2_start_ignores_client_secret_cex :
    envNoClientSecretFix.googleClientSecret = "" ∧
    (apiAuthGoogleStart envNoClientSecretFix (some "/p")).status = 302 ∧
    ((apiAuthGoogleStart envNoClientSecretFix (some "/p")).location).isSome = true :=
  ⟨rfl, rfl, rfl⟩

/-- C2 (amended): the start endpoint answers 500 with an error body and no
redirect when the client id or redirect URI is unconfigured; the client
secret is not consulted at all (the response is invariant in it). -/
theorem c2_start_requires_client_id_and_redirect_uri (env : Env) (fromQ : Option String) :
    ((env.googleClientId = "" ∨ env.googleRedirectUri = "") →
      (apiAuthGoogleStart env fromQ).status = 500 ∧
      (apiAuthGoogleStart env fromQ).errorMsg = some "Google OAuth not configured" ∧
      (apiAuthGoogleStart env fromQ).location = none) ∧
    (∀ s, apiAuthGoogleStart { env with googleClientSecret := s } fromQ =
      apiAuthGoogleStart env fromQ) := by
  constructor
  · intro h
    simp only [apiAuthGoogleStart]
    rw [if_pos h]
    exact ⟨rfl, rfl, rfl⟩
  · intro s
    rfl

/-- C2 (witness): with the client id unset the start endpoint answers 500
and performs no redirect. -/
theorem c2_start_requires_client_id_and_redirect_uri_witness :
    envNoClientIdFix.googleClientId = "" ∧
    (apiAuthGoogleStart envNoClientIdFix (some "/p")).status = 500 ∧
    (apiAuthGoogleStart envNoClientIdFix (some "/p")).location = none := by
  have h :=
    (c2_start_requires_client_id_and_redirect_uri envNoClientIdFix (some "/p")).1 (Or.inl rfl)
  exact ⟨rfl, h.1, h.2.2⟩

/-- C3: the start endpoint's `state` equals the caller's `from` exactly
when `from` is a string beginning with `/`; for any other value
(non-string/absent, or not beginning with `/`) it is the default
`/admin`. -/
theorem c3_start_state_same_origin_only (fromQ : Option String) :
    (∀ f, fromQ = some f → (computeState fromQ = f ↔ firstCharIs f '/' = true)) ∧
    ((∀ f, fromQ = some f → firstCharIs f '/' = false) → computeState fromQ = "/admin") := by
  constructor
  · intro f hf
    subst hf
    by_cases hsw : firstCharIs f '/' = true
    · have hne : f ≠ "" := by
        intro h0
        rw [h0] at hsw
        exact absurd hsw (by decide)
      simp [computeState, hsw, hne]
    · have hne : f ≠ "/admin" := by
        intro h0
        rw [h0] at hsw
        exact hsw (by decide)
      simp only [computeState, Option.getD_some]
      rw [if_neg hsw, if_neg (by simp)]
      constructor
      · intro h0
        exact absurd h0.symm hne
      · intro h0
        exact absurd h0 hsw
  · intro h
    cases fromQ with
    | none => rfl
    | some f =>
      have hsw := h f rfl
      simp only [computeState, Option.getD_some]
      rw [if_neg (by simp [hsw])]

/-- C3 (witness): an absolute URL and an absent `from` both default to
`/admin`; a rooted path is preserved verbatim. -/
theorem c3_start_state_same_origin_only_witness :
    computeState (some "https://evil.example/x") = "/admin" ∧
    computeState (some "/admin/products") = "/admin/products" ∧
    computeState none = "/admin" := by
  refine ⟨?_, ?_, ?_⟩
  · exact (c3_start_state_same_origin_only (some "https://evil.example/x")).2
      (fun f hf => by cases hf; decide)
  · exact ((c3_start_state_same_origin_only (some "/admin/products")).1
      "/admin/products" rfl).mpr (by decide)
  · exact (c3_start_state_same_origin_only none).2 (fun f hf => by cases hf)

/-- C4: with the signing secret unconfigured, `readSession` returns `none`
for every request, whatever cookie it carries. -/
theorem c4_unset_secret_rejects_every_token (env : Env) (nowMs : Nat) (req : Request)
    (h : env.adminJwtSecret = "") :
    readSession env nowMs req = none := by
  have htok : ∀ token, readSessionToken env.adminJwtSecret (nowMs / 1000) token = none := by
    intro token
    unfold readSessionToken
    by_cases ht : token = ""
    · rw [if_pos ht]
    · rw [if_neg ht, if_pos h]
  unfold readSession
  cases cookieGet (parseCookies req.cookieHeader) "admin_session" with
  | none => rfl
  | some token => exact htok token

/-- C4 (witness): a token correctly HMAC-signed with the empty string as
key is still rejected when the secret is unset. -/
theorem c4_unset_secret_rejects_every_token_witness :
    envNoJwtSecretFix.adminJwtSecret = "" ∧
    readSession envNoJwtSecretFix 1700000000000 reqEmptyKeyFix = none :=
  ⟨rfl, c4_unset_secret_rejects_every_token envNoJwtSecretFix 1700000000000 reqEmptyKeyFix rfl⟩

/-- C5: an `admin_session` cookie value that does not split on `.` into
exactly two non-empty parts is treated as "no session" (`none`), never an
error; `readSession` is a total function, so no input makes it throw. -/
theorem c5_malformed_cookie_treated_absent (env : Env) (nowMs : Nat) (req : Request)
    (token : String)
    (hc : cookieGet (parseCookies req.cookieHeader) "admin_session" = some token)
    (h : (jsSplit token '.').length ≠ 2 ∨ "" ∈ jsSplit token '.') :
    readSession env nowMs req = none := by
  rw [readSession_of_cookie env nowMs req token hc]
  exact readSessionToken_malformed_split _ _ _ h

/-- C5 (witness): a cookie value with two separators (`a.b.c`) yields
`none`. -/
theorem c5_malformed_cookie_treated_absent_witness :
    cookieGet (parseCookies reqMalformedFix.cookieHeader) "admin_session" = some "a.b.c" ∧
    (jsSplit "a.b.c" '.').length ≠ 2 ∧
    readSession envFix 1700000000000 reqMalformedFix = none :=
  ⟨by decide, by decide,
   c5_malformed_cookie_treated_absent envFix 1700000000000 reqMalformedFix "a.b.c"
     (by decide) (Or.inl (by decide))⟩

/-- C6: a token whose signature verifies but whose decoded payload has an
`exp` that is missing, non-numeric, or numerically below the current time
in seconds yields `none` — expiry is enforced even under a valid
signature. -/
theorem c6_valid_signature_bad_exp_rejected (env : Env) (nowMs : Nat) (req : Request)
    (token b64 sig : String) (payload : Json)
    (hc : cookieGet (parseCookies req.cookieHeader) "admin_session" = some token)
    (hsp : jsSplit token '.' = [b64, sig]) (hb : b64 ≠ "") (hs : sig ≠ "")
    (hsecret : env.adminJwtSecret ≠ "")
    (hsig : sig = base64urlEncode (hmacSha256 (utf8Encode env.adminJwtSecret) (utf8Encode b64)))
    (hparse : jsonParse (utf8Decode (base64urlDecode b64)) = some payload)
    (hexp : jget payload "exp" = none ∨
            (∀ n : Int, jget payload "exp" ≠ some (.jnum n)) ∨
            (∃ n : Int, jget payload "exp" = some (.jnum n) ∧ n < ((nowMs / 1000 : Nat) : Int))) :
    readSession env nowMs req = none := by
  rw [readSession_of_cookie env nowMs req token hc,
      readSessionToken_verified env.adminJwtSecret (nowMs / 1000) token b64 sig payload
        hsp hb hs hsecret hsig hparse]
  exact checkPayloadExp_invalid payload (nowMs / 1000) hexp

/-- C6 (witness): a correctly signed token with `exp = 1000` is rejected at
time 1700000000s. -/
theorem c6_valid_signature_bad_exp_rejected_witness :
    jsSplit tokenExpiredFix '.' = [b64Of jsonExpiredFix, sigOf secretFix jsonExpiredFix] ∧
    jsonParse (utf8Decode (base64urlDecode (b64Of jsonExpiredFix))) = some payloadExpiredFix ∧
    jget payloadExpiredFix "exp" = some (.jnum 1000) ∧
    readSession envFix 1700000000000 reqExpiredFix = none := by
  refine ⟨by decide, rfl, rfl, ?_⟩
  exact c6_valid_signature_bad_exp_rejected envFix 1700000000000 reqExpiredFix
    tokenExpiredFix (b64Of jsonExpiredFix) (sigOf secretFix jsonExpiredFix) payloadExpiredFix
    rfl (by decide) (by decide) (by decide) (by decide) rfl rfl
    (Or.inr (Or.inr ⟨1000, rfl, by decide⟩))

/-- C1 (counterexample): a correctly signed, unexpired token whose payload
has neither `sub` nor `email` is **accepted**: `readSession` returns the
partially populated payload and `/api/auth/me` answers 200 with empty
user fields — not the `none`/401 the claim requires. -/
theorem c1_missing_sub_email_accepted_cex :
    jget payloadNoSubFix "sub" = none ∧
    jget payloadNoSubFix "email" = none ∧
    readSession envFix nowMsFix reqNoSubFix = some payloadNoSubFix ∧
    apiAuthMe envFix nowMsFix reqNoSubFix =
      { status := 200, authenticated := true,
        user := some { email := none, name := none, sub := none } } :=
  ⟨rfl, rfl, rfl, rfl⟩

/-- C1 (amended): `readSession` validates only structure, signature and
expiry — not `sub`/`email`.  Any signature-valid, unexpired token is
accepted even when `sub` or `email` is missing or empty, and
`/api/auth/me` then answers 200 authenticated.  (Non-empty `sub`/`email`
are enforced only at mint time by the callback.) -/
theorem c1_no_sub_email_validation (env : Env) (nowMs : Nat) (req : Request)
    (token b64 sig : String) (payload : Json) (n : Int)
    (hc : cookieGet (parseCookies req.cookieHeader) "admin_session" = some token)
    (hsp : jsSplit token '.' = [b64, sig]) (hb : b64 ≠ "") (hs : sig ≠ "")
    (hsecret : env.adminJwtSecret ≠ "")
    (hsig : sig = base64urlEncode (hmacSha256 (utf8Encode env.adminJwtSecret) (utf8Encode b64)))
    (hparse : jsonParse (utf8Decode (base64urlDecode b64)) = some payload)
    (hexpv : jget payload "exp" = some (.jnum n)) (hn : n ≠ 0)
    (hfuture : ¬ n < ((nowMs / 1000 : Nat) : Int))
    (hmissing : jget payload "sub" = none ∨ jget payload "sub" = some (.jstr "") ∨
                jget payload "email" = none ∨ jget payload "email" = some (.jstr "")) :
    readSession env nowMs req = some payload ∧
    (apiAuthMe env nowMs req).status = 200 ∧
    (apiAuthMe env nowMs req).authenticated = true := by
  have hrs : readSession env nowMs req = some payload := by
    rw [readSession_of_cookie env nowMs req token hc,
        readSessionToken_verified env.adminJwtSecret (nowMs / 1000) token b64 sig payload
          hsp hb hs hsecret hsig hparse]
    exact checkPayloadExp_valid payload (nowMs / 1000) n hexpv hn hfuture
  refine ⟨hrs, ?_, ?_⟩ <;> simp [apiAuthMe, hrs]

/-- C1 (witness): the amended claim at the concrete no-`sub` token. -/
theorem c1_no_sub_email_validation_witness :
    jget payloadNoSubFix "sub" = none ∧
    readSession envFix nowMsFix reqNoSubFix = some payloadNoSubFix ∧
    (apiAuthMe envFix nowMsFix reqNoSubFix).status = 200 := by
  have h := c1_no_sub_email_validation envFix nowMsFix reqNoSubFix
    tokenNoSubFix (b64Of jsonNoSubFix) (sigOf secretFix jsonNoSubFix) payloadNoSubFix
    9999999999 rfl (by decide) (by decide) (by decide) (by decide) rfl rfl rfl
    (by decide) (by decide) (Or.inl rfl)
  exact ⟨rfl, h.1, h.2.1⟩

/-- C7: `/api/auth/me` answers 200 authenticated exactly when the cookie
yields a session or the configured static token matches the
`x-admin-token` header; header-only authentication yields the fixed
synthetic principal; neither yields 401 unauthenticated. -/
theorem c7_me_dual_authentication (env : Env) (nowMs : Nat) (req : Request) :
    (((apiAuthMe env nowMs req).status = 200 ∧ (apiAuthMe env nowMs req).authenticated = true) ↔
      (readSession env nowMs req ≠ none ∨
        (env.adminApiToken ≠ "" ∧ req.adminTokenHeader.getD "" = env.adminApiToken))) ∧
    (readSession env nowMs req = none →
      (env.adminApiToken ≠ "" ∧ req.adminTokenHeader.getD "" = env.adminApiToken) →
      apiAuthMe env nowMs req =
        { status := 200, authenticated := true, user := some devAdminUser }) ∧
    (readSession env nowMs req = none →
      ¬ (env.adminApiToken ≠ "" ∧ req.adminTokenHeader.getD "" = env.adminApiToken) →
      apiAuthMe env nowMs req = { status := 401, authenticated := false, user := none }) := by
  cases hrs : readSession env nowMs req with
  | some payload =>
    refine ⟨?_, ?_, ?_⟩ <;> simp [apiAuthMe, hrs]
  | none =>
    by_cases hok : env.adminApiToken ≠ "" ∧ req.adminTokenHeader.getD "" = env.adminApiToken
    · refine ⟨?_, ?_, ?_⟩ <;> simp [apiAuthMe, hrs, hok]
    · refine ⟨?_, ?_, ?_⟩ <;> simp [apiAuthMe, hrs, hok]

/-- C7 (witness): a request with no cookie and only the correct
`x-admin-token` header is authenticated as the synthetic principal. -/
theorem c7_me_dual_authentication_witness :
    readSession envFix 1700000000000 reqHeaderOnlyFix = none ∧
    apiAuthMe envFix 1700000000000 reqHeaderOnlyFix =
      { status := 200, authenticated := true, user := some devAdminUser } := by
  refine ⟨rfl, ?_⟩
  exact (c7_me_dual_authentication envFix 1700000000000 reqHeaderOnlyFix).2.1 rfl
    ⟨by decide, rfl⟩

/-- C8: the callback sets a cookie only when every stage succeeded (so
every error path — missing code/config, thrown exception, failed
exchange, invalid assertion, mismatched audience, missing email/subject —
sets none), and a mismatched audience in particular yields exactly 401
with no cookie. -/
theorem c8_callback_error_paths_set_no_cookie (env : Env) (nowMs : Nat)
    (codeQ stateQ : Option String) (up : CallbackUpstream) :
    ((apiAuthGoogleCallback env nowMs codeQ stateQ up).cookie ≠ none →
      callbackSuccess env codeQ up) ∧
    ((codeQ.getD "" ≠ "" ∧ env.googleClientId ≠ "" ∧ env.googleClientSecret ≠ "" ∧
      env.googleRedirectUri ≠ "" ∧ env.adminJwtSecret ≠ "" ∧ up.threw = false ∧
      up.tokenRes.ok = true ∧ up.infoRes.ok = true ∧
      jsToStringOpt (jget up.infoRes.body "aud") ≠ env.googleClientId) →
      apiAuthGoogleCallback env nowMs codeQ stateQ up =
        { status := 401, errorMsg := some "Mismatched audience", cookie := none,
          location := none }) := by
  constructor
  · intro hc
    by_cases h : callbackSuccess env codeQ up
    · exact h
    · exact absurd (callback_failure_no_cookie env nowMs codeQ stateQ up h) hc
  · rintro ⟨hcode, hcid, hcs, hru, hsec, hthrew, htok, hinfo, haud⟩
    exact callback_aud_mismatch_eq env nowMs codeQ stateQ up hcode hcid hcs hru hsec
      hthrew htok hinfo haud

/-- C8 (witness): a concrete callback whose assertion's `aud` is
`other-client` against client id `client-id-1` answers 401 with no
cookie. -/
theorem c8_callback_error_paths_set_no_cookie_witness :
    jsToStringOpt (jget upBadAudFix.infoRes.body "aud") ≠ envFix.googleClientId ∧
    apiAuthGoogleCallback envFix nowMsFix (some "authcode") (some "/admin") upBadAudFix =
      { status := 401, errorMsg := some "Mismatched audience", cookie := none,
        location := none } := by
  refine ⟨by decide, ?_⟩
  exact (c8_callback_error_paths_set_no_cookie envFix nowMsFix (some "authcode")
      (some "/admin") upBadAudFix).2
    ⟨by decide, by decide, by decide, by decide, by decide, rfl, rfl, rfl, by decide⟩

/-- C9 (counterexample): on a concrete successful callback the minted
cookie value signs the **base64url-encoded** payload, which differs from
the claim's `base64url(serializedPayload) + "." +
base64url(HMAC-SHA256(serializedPayload))` — the HMAC-SHA256 of the
serialized payload itself produces a different signature. -/
theorem c9_signature_over_encoded_payload_cex :
    (apiAuthGoogleCallback envFix nowMsFix (some "authcode") (some "/admin/products")
        upFix).cookie.map (fun c => c.value) =
      some (b64Of (payloadJson "g123" "a@b.c" 1700604800 "Al") ++ "." ++
        base64urlEncode (hmacSha256 (utf8Encode secretFix)
          (utf8Encode (b64Of (payloadJson "g123" "a@b.c" 1700604800 "Al"))))) ∧
    (b64Of (payloadJson "g123" "a@b.c" 1700604800 "Al") ++ "." ++
        base64urlEncode (hmacSha256 (utf8Encode secretFix)
          (utf8Encode (b64Of (payloadJson "g123" "a@b.c" 1700604800 "Al"))))) ≠
      (b64Of (payloadJson "g123" "a@b.c" 1700604800 "Al") ++ "." ++
        base64urlEncode (hmacSha256 (utf8Encode secretFix)
          (utf8Encode (payloadJson "g123" "a@b.c" 1700604800 "Al")))) :=
  ⟨rfl, by decide⟩

/-- C9 (amended): the minted cookie value is
`base64url(serializedPayload) + "." + base64url(HMAC-SHA256(secret,
base64url(serializedPayload)))` — the signature is over the encoded
payload — with expiry exactly now + 604800 seconds, set HttpOnly,
SameSite=Lax, Path=/. -/
theorem c9_minted_cookie_wire_format (env : Env) (nowMs : Nat) (codeQ stateQ : Option String)
    (up : CallbackUpstream) (h : callbackSuccess env codeQ up) :
    (apiAuthGoogleCallback env nowMs codeQ stateQ up).cookie =
      some
        { name := "admin_session",
          value := base64urlEncode (utf8Encode (payloadJson
              (if jsFalsy (jget up.infoRes.body "sub") then ""
               else jsToStringOpt (jget up.infoRes.body "sub"))
              (if jsFalsy (jget up.infoRes.body "email") then ""
               else jsToStringOpt (jget up.infoRes.body "email"))
              (((nowMs / 1000 : Nat) : Int) + 604800)
              (if jsFalsy (jget up.infoRes.body "name") then ""
               else jsToStringOpt (jget up.infoRes.body "name")))) ++ "." ++
            base64urlEncode (hmacSha256 (utf8Encode env.adminJwtSecret)
              (utf8Encode (base64urlEncode (utf8Encode (payloadJson
                (if jsFalsy (jget up.infoRes.body "sub") then ""
                 else jsToStringOpt (jget up.infoRes.body "sub"))
                (if jsFalsy (jget up.infoRes.body "email") then ""
                 else jsToStringOpt (jget up.infoRes.body "email"))
                (((nowMs / 1000 : Nat) : Int) + 604800)
                (if jsFalsy (jget up.infoRes.body "name") then ""
                 else jsToStringOpt (jget up.infoRes.body "name"))))))),
          httpOnly := true, sameSite := "lax",
          secure := jsToLower env.nodeEnv == "production", path := "/", maxAge := none } := by
  rw [callback_success_eq env nowMs codeQ stateQ up h]
  rfl

/-- C9 (witness): the amended wire format at a concrete successful
callback. -/
theorem c9_minted_cookie_wire_format_witness :
    callbackSuccess envFix (some "authcode") upFix ∧
    (apiAuthGoogleCallback envFix nowMsFix (some "authcode") (some "/admin")
        upFix).cookie =
      some
        { name := "admin_session",
          value := b64Of (payloadJson "g123" "a@b.c" 1700604800 "Al") ++ "." ++
            sigOf secretFix (payloadJson "g123" "a@b.c" 1700604800 "Al"),
          httpOnly := true, sameSite := "lax", secure := false, path := "/",
          maxAge := none } := by
  refine ⟨by decide, ?_⟩
  have h := c9_minted_cookie_wire_format envFix nowMsFix (some "authcode") (some "/admin")
    upFix (by decide)
  exact h.trans (by rfl)

/-- C10: the same-origin check looks only at the first character — any
string starting with `/`, including protocol-relative `//host/...` URLs,
is used verbatim as the start endpoint's `state` and followed verbatim by
the callback's redirect. -/
theorem c10_first_char_only_redirect_check (s : String) (h : firstCharIs s '/' = true) :
    computeState (some s) = s ∧
    (∀ env nowMs codeQ up, callbackSuccess env codeQ up →
      (apiAuthGoogleCallback env nowMs codeQ (some s) up).location = some s) := by
  constructor
  · have hne : s ≠ "" := by
      intro h0
      rw [h0] at h
      exact absurd h (by decide)
    simp [computeState, h, hne]
  · intro env nowMs codeQ up hsucc
    rw [callback_success_eq env nowMs codeQ (some s) up hsucc]
    show some (if firstCharIs s '/' then s else "/admin") = some s
    rw [if_pos h]

/-- C10 (witness): the protocol-relative URL `//evil.example/x` is kept as
`state` and followed by the callback. -/
theorem c10_first_char_only_redirect_check_witness :
    firstCharIs "//evil.example/x" '/' = true ∧
    computeState (some "//evil.example/x") = "//evil.example/x" ∧
    (apiAuthGoogleCallback envFix nowMsFix (some "authcode")
      (some "//evil.example/x") upFix).location = some "//evil.example/x" := by
  have h := c10_first_char_only_redirect_check "//evil.example/x" (by decide)
  exact ⟨by decide, h.1, h.2 envFix nowMsFix (some "authcode") upFix (by decide)⟩

end Up2You
